import Mathlib

/-!
Verification of the order-composition logic of the El-Ruby order form
(src/components/orders/order-form.tsx), embedded shallowly: the draft
state is explicit, JavaScript numbers are modelled as rationals, and the
submit handler is a pure function from the store oracle and the draft to
a trace of issued effects plus the final flag/error values.
-/

namespace OrderForm

/-- Product record from the catalog prop: id, name, price, stock_quantity, sku. -/
structure Product where
  id : String
  name : String
  price : ℚ
  stock_quantity : Int
  sku : Option String
deriving DecidableEq, Repr

/-- Draft line item: productId, quantity, unitPrice. -/
structure OrderItem where
  productId : String
  quantity : ℚ
  unitPrice : ℚ
deriving DecidableEq, Repr

/-- The typed field/value pairs with which the rendered form calls
updateOrderItem: productId receives a string, quantity and unitPrice
receive numbers. -/
inductive FieldValue where
  | productId (v : String)
  | quantity (v : ℚ)
  | unitPrice (v : ℚ)
deriving DecidableEq, Repr

/-- addOrderItem: appends a fresh item with empty productId, quantity 1,
unitPrice 0 (line 52-54 of the source). -/
def addOrderItem (items : List OrderItem) : List OrderItem :=
  items ++ [{ productId := "", quantity := 1, unitPrice := 0 }]

/-- removeOrderItem: orderItems.filter((_, i) => i !== index)
(line 56-58 of the source), written as filtering the enumerated list. -/
def removeOrderItem (items : List OrderItem) (index : Nat) : List OrderItem :=
  (items.enum.filter (fun p => p.1 != index)).map Prod.snd

/-- Replacement of the element at a position, the effect of
updatedItems[index] = f(updatedItems[index]) on a copy of the array. -/
def modifyItem (f : OrderItem → OrderItem) : Nat → List OrderItem → List OrderItem
  | _, [] => []
  | 0, it :: rest => f it :: rest
  | i + 1, it :: rest => it :: modifyItem f i rest

/-- updateOrderItem (line 60-75 of the source): for productId, look the
product up in the catalog and, when found, set productId and overwrite
unitPrice with the catalog price in the same update; when not found, the
copied array is returned unassigned. For quantity or unitPrice, set just
that field. -/
def updateOrderItem (products : List Product) (items : List OrderItem)
    (index : Nat) : FieldValue → List OrderItem
  | .productId v =>
    match products.find? (fun p => p.id == v) with
    | some product =>
      modifyItem (fun it => { it with productId := v, unitPrice := product.price }) index items
    | none => items
  | .quantity v => modifyItem (fun it => { it with quantity := v }) index items
  | .unitPrice v => modifyItem (fun it => { it with unitPrice := v }) index items

/-- calculateTotal (line 77-79): reduce over the items with accumulator
starting at 0, adding quantity * unitPrice. -/
def calculateTotal (items : List OrderItem) : ℚ :=
  items.foldl (fun total item => total + item.quantity * item.unitPrice) 0

/-- JavaScript String.prototype.trim: drop whitespace from both ends. -/
def trim (s : String) : String :=
  String.mk (((s.data.dropWhile Char.isWhitespace).reverse.dropWhile Char.isWhitespace).reverse)

/-- Stated from the spec for comparison: the sum of quantity x unitPrice
over the item list. -/
def specTotalSum (items : List OrderItem) : ℚ :=
  (items.map (fun item => item.quantity * item.unitPrice)).sum

/-- One user-driven mutation of the item list. -/
inductive Op where
  | add
  | remove (index : Nat)
  | update (index : Nat) (fv : FieldValue)
deriving DecidableEq, Repr

/-- Apply one mutation to the item list. -/
def applyOp (products : List Product) (items : List OrderItem) : Op → List OrderItem
  | .add => addOrderItem items
  | .remove i => removeOrderItem items i
  | .update i fv => updateOrderItem products items i fv

/-- Apply a sequence of mutations starting from the initially empty draft. -/
def applyOps (products : List Product) (ops : List Op) : List OrderItem :=
  ops.foldl (applyOp products) []

/-- The draft state read by handleSubmit: customerId, paymentMethod,
notes and the item list. -/
structure FormState where
  customerId : String
  paymentMethod : String
  notes : String
  orderItems : List OrderItem
deriving DecidableEq, Repr

/-- An error from the data store client: an object exposing a message
field, which may be absent. -/
structure StoreError where
  message : Option String
deriving DecidableEq, Repr

/-- error.message or the generic fallback when the message is absent or
empty, mirroring the falsy check of line 123. -/
def errMessage (e : StoreError) : String :=
  match e.message with
  | some m => if m = "" then "An error occurred" else m
  | none => "An error occurred"

/-- The created order row returned by the first insert; only its
generated id is consumed. -/
structure CreatedOrder where
  id : String
deriving DecidableEq, Repr

/-- Oracle for the two data-store calls of one submit attempt. -/
structure Store where
  orderResult : Except StoreError CreatedOrder
  itemsResult : Except StoreError Unit

/-- The order payload of line 96-102. -/
structure OrderData where
  customer_id : Option String
  total_amount : ℚ
  status : String
  payment_method : Option String
  notes : Option String
deriving DecidableEq, Repr

/-- One line-item payload of line 109-115. -/
structure OrderItemData where
  order_id : String
  product_id : String
  quantity : ℚ
  unit_price : ℚ
  total_price : ℚ
deriving DecidableEq, Repr

/-- The outward-facing calls handleSubmit can issue, in issue order.
deleteOrder is in the vocabulary to express that no rollback of the
created order is ever issued. -/
inductive Effect where
  | insertOrder (d : OrderData)
  | insertItems (l : List OrderItemData)
  | deleteOrder (orderId : String)
  | navigate (path : String)
deriving DecidableEq, Repr

/-- What one call of handleSubmit produced: the trace of issued effects,
the final error message, the final submitting flag, and the draft state
as left behind. -/
structure SubmitResult where
  effects : List Effect
  error : Option String
  submitting : Bool
  state : FormState
deriving DecidableEq, Repr

/-- Order payload construction (line 96-102): customer_id null for the
walk-in sentinel, total from calculateTotal, fixed pending status,
payment_method or null when falsy, trimmed notes or null when falsy. -/
def buildOrderData (s : FormState) : OrderData :=
  { customer_id := if s.customerId = "walk-in" then none else some s.customerId
    total_amount := calculateTotal s.orderItems
    status := "pending"
    payment_method := if s.paymentMethod = "" then none else some s.paymentMethod
    notes := if trim s.notes = "" then none else some (trim s.notes) }

/-- One line-item payload (line 109-115): order_id from the created
order, fields copied from the draft item, total_price computed per
item. -/
def mkOrderItemData (orderId : String) (item : OrderItem) : OrderItemData :=
  { order_id := orderId
    product_id := item.productId
    quantity := item.quantity
    unit_price := item.unitPrice
    total_price := item.quantity * item.unitPrice }

/-- handleSubmit (line 81-127): guard on the empty item list, then
insert the order payload; on success insert the batch of line-item
payloads; on success of both navigate to the order detail page. Every
path resets submitting to false, and the draft state is never mutated.
The products prop is in scope but never consulted. -/
def handleSubmit (products : List Product) (store : Store) (s : FormState) : SubmitResult :=
  if s.orderItems.length = 0 then
    { effects := []
      error := some "Please add at least one item to the order"
      submitting := false
      state := s }
  else
    let orderData := buildOrderData s
    match store.orderResult with
    | .error e =>
      { effects := [.insertOrder orderData]
        error := some (errMessage e)
        submitting := false
        state := s }
    | .ok order =>
      let itemsData := s.orderItems.map (mkOrderItemData order.id)
      match store.itemsResult with
      | .error e =>
        { effects := [.insertOrder orderData, .insertItems itemsData]
          error := some (errMessage e)
          submitting := false
          state := s }
      | .ok _ =>
        { effects := [.insertOrder orderData, .insertItems itemsData,
            .navigate ("/dashboard/orders/" ++ order.id)]
          error := none
          submitting := false
          state := s }

/-- The per-line soft stock warning of line 206-208: shown when the
referenced product exists and its stock_quantity is below the requested
quantity. -/
def stockWarning (products : List Product) (item : OrderItem) : Bool :=
  match products.find? (fun p => p.id == item.productId) with
  | some product => decide ((product.stock_quantity : ℚ) < item.quantity)
  | none => false

/-- Two products equal except possibly in stock_quantity. -/
def productEqExceptStock (a b : Product) : Bool :=
  a.id == b.id && a.name == b.name && a.price == b.price && a.sku == b.sku

/-- Two catalogs equal except possibly in the stock_quantity values. -/
def catalogEqExceptStock : List Product → List Product → Bool
  | [], [] => true
  | a :: as, b :: bs => productEqExceptStock a b && catalogEqExceptStock as bs
  | _, _ => false

end OrderForm

namespace OrderForm

theorem calculateTotal_foldl (items : List OrderItem) (a : ℚ) :
    items.foldl (fun total item => total + item.quantity * item.unitPrice) a
      = a + specTotalSum items := by
  induction items generalizing a with
  | nil => simp [specTotalSum]
  | cons it rest ih => simp [specTotalSum, List.foldl_cons, ih, List.map_cons] ; ring

theorem modifyItem_length (f : OrderItem → OrderItem) (i : Nat) (l : List OrderItem) :
    (modifyItem f i l).length = l.length := by
  induction l generalizing i with
  | nil => cases i <;> rfl
  | cons x xs ih =>
    cases i with
    | zero => rfl
    | succ n => simp [modifyItem, ih]

theorem modifyItem_getElem?_self (f : OrderItem → OrderItem) (i : Nat) (l : List OrderItem)
    (x : OrderItem) (h : l[i]? = some x) : (modifyItem f i l)[i]? = some (f x) := by
  induction l generalizing i with
  | nil => simp at h
  | cons y ys ih =>
    cases i with
    | zero =>
      simp only [List.getElem?_cons_zero, Option.some.injEq] at h
      subst h
      simp [modifyItem]
    | succ n =>
      simp only [List.getElem?_cons_succ] at h
      simpa [modifyItem] using ih n h

theorem modifyItem_getElem?_ne (f : OrderItem → OrderItem) (i j : Nat) (l : List OrderItem)
    (h : j ≠ i) : (modifyItem f i l)[j]? = l[j]? := by
  induction l generalizing i j with
  | nil => cases i <;> rfl
  | cons x xs ih =>
    cases i with
    | zero =>
      cases j with
      | zero => exact absurd rfl h
      | succ m => rfl
    | succ n =>
      cases j with
      | zero => simp [modifyItem]
      | succ m => simpa [modifyItem] using ih n m (by omega)

theorem removeFilter_enumFrom_lt (xs : List OrderItem) (k j : Nat) (h : j < k) :
    ((List.enumFrom k xs).filter (fun p => p.1 != j)).map Prod.snd = xs := by
  induction xs generalizing k with
  | nil => rfl
  | cons x rest ih =>
    have hne : (k != j) = true := by simp ; omega
    simp only [List.enumFrom, List.filter, hne, List.map_cons]
    rw [ih (k + 1) (by omega)]

theorem removeFilter_enumFrom_le (xs : List OrderItem) (k j : Nat) (h : k ≤ j) :
    ((List.enumFrom k xs).filter (fun p => p.1 != j)).map Prod.snd
      = xs.take (j - k) ++ xs.drop (j - k + 1) := by
  induction xs generalizing k with
  | nil => simp
  | cons x rest ih =>
    by_cases hkj : k = j
    · subst hkj
      have hk : (k != k) = false := by simp
      simp only [List.enumFrom, List.filter, hk]
      rw [removeFilter_enumFrom_lt rest (k + 1) k (by omega)]
      simp
    · have hk : (k != j) = true := by simp ; omega
      obtain ⟨d, hd⟩ : ∃ d, j - k = d + 1 := ⟨j - k - 1, by omega⟩
      simp only [List.enumFrom, List.filter, hk, List.map_cons]
      rw [ih (k + 1) (by omega), hd]
      have hd2 : j - (k + 1) = d := by omega
      rw [hd2]
      simp [List.take_succ_cons, List.drop_succ_cons]

theorem removeOrderItem_eq_take_drop (items : List OrderItem) (index : Nat) :
    removeOrderItem items index = items.take index ++ items.drop (index + 1) := by
  have h := removeFilter_enumFrom_le items 0 index (Nat.zero_le _)
  simpa [removeOrderItem, List.enum] using h

/-- Sample draft: walk-in customer, two concrete line items. -/
def sampleState2 : FormState := ⟨"walk-in", "cash", "", [⟨"A", 2, 10⟩, ⟨"B", 1, 5⟩]⟩

/-- Sample draft: notes that need trimming, falsy payment method. -/
def sampleState1 : FormState := ⟨"walk-in", "", "  gift wrap  ", [⟨"A", 2, 10⟩]⟩

/-- Sample draft: one line requesting more than the catalog stock. -/
def sampleState3 : FormState := ⟨"walk-in", "cash", "", [⟨"A", 5, 10⟩]⟩

/-- Store oracle where both inserts succeed. -/
def storeOk : Store := ⟨.ok ⟨"o1"⟩, .ok ()⟩

/-- Store oracle where the order insert fails with a message-less error. -/
def storeOrderFail : Store := ⟨.error ⟨none⟩, .ok ()⟩

/-- Store oracle where the order insert succeeds and the item insert fails. -/
def storeItemsFail : Store := ⟨.ok ⟨"o1"⟩, .error ⟨some "boom"⟩⟩

/-- C1: after any sequence of addItem/removeItem/updateItem operations on
the initially empty draft, calculateTotal equals the sum of
quantity x unitPrice over the resulting item list, and equals zero on the
empty list; calculateTotal is a pure function of the item list, so it
has no effect on the draft state. -/
theorem calculateTotal_eq_sum (products : List Product) (ops : List Op) :
    calculateTotal (applyOps products ops) = specTotalSum (applyOps products ops)
    ∧ calculateTotal [] = 0 := by
  constructor
  · simpa [calculateTotal] using calculateTotal_foldl (applyOps products ops) 0
  · rfl

/-- C2: on an empty item list, handleSubmit issues no effect at all (in
particular neither insert), sets the error to exactly the validation
message, leaves submitting false at the end, and leaves the draft
unchanged. -/
theorem handleSubmit_emptyGuard (products : List Product) (store : Store) (s : FormState)
    (h : s.orderItems = []) :
    (handleSubmit products store s).effects = []
    ∧ (handleSubmit products store s).error
        = some "Please add at least one item to the order"
    ∧ (handleSubmit products store s).submitting = false
    ∧ (handleSubmit products store s).state = s := by
  simp [handleSubmit, h]

/-- Witness for C2 at a concrete empty draft and a store that would
succeed. -/
theorem handleSubmit_emptyGuard_witness :
    (⟨"walk-in", "cash", "", []⟩ : FormState).orderItems = []
    ∧ ((handleSubmit [] storeOk ⟨"walk-in", "cash", "", []⟩).effects = []
      ∧ (handleSubmit [] storeOk ⟨"walk-in", "cash", "", []⟩).error
          = some "Please add at least one item to the order"
      ∧ (handleSubmit [] storeOk ⟨"walk-in", "cash", "", []⟩).submitting = false
      ∧ (handleSubmit [] storeOk ⟨"walk-in", "cash", "", []⟩).state
          = ⟨"walk-in", "cash", "", []⟩) :=
  ⟨rfl, handleSubmit_emptyGuard [] storeOk ⟨"walk-in", "cash", "", []⟩ rfl⟩

/-- C8: removing the item at an in-bounds index yields the list with
exactly that position removed — the items before it, then the items
after it, in order — so the length drops by one. -/
theorem removeOrderItem_spec (items : List OrderItem) (index : Nat)
    (h : index < items.length) :
    removeOrderItem items index = items.take index ++ items.drop (index + 1)
    ∧ (removeOrderItem items index).length = items.length - 1 := by
  refine ⟨removeOrderItem_eq_take_drop items index, ?_⟩
  rw [removeOrderItem_eq_take_drop]
  simp only [List.length_append, List.length_take, List.length_drop]
  omega

/-- Witness for C8 on a three-item list at index 1. -/
theorem removeOrderItem_spec_witness :
    1 < ([⟨"A", 2, 10⟩, ⟨"B", 1, 5⟩, ⟨"C", 3, 7⟩] : List OrderItem).length
    ∧ (removeOrderItem [⟨"A", 2, 10⟩, ⟨"B", 1, 5⟩, ⟨"C", 3, 7⟩] 1
          = ([⟨"A", 2, 10⟩, ⟨"B", 1, 5⟩, ⟨"C", 3, 7⟩] : List OrderItem).take 1
            ++ ([⟨"A", 2, 10⟩, ⟨"B", 1, 5⟩, ⟨"C", 3, 7⟩] : List OrderItem).drop (1 + 1)
      ∧ (removeOrderItem [⟨"A", 2, 10⟩, ⟨"B", 1, 5⟩, ⟨"C", 3, 7⟩] 1).length
          = ([⟨"A", 2, 10⟩, ⟨"B", 1, 5⟩, ⟨"C", 3, 7⟩] : List OrderItem).length - 1) :=
  ⟨by decide, removeOrderItem_spec [⟨"A", 2, 10⟩, ⟨"B", 1, 5⟩, ⟨"C", 3, 7⟩] 1 (by decide)⟩

/-- C3: on a non-empty item list, the first effect handleSubmit issues is
the order insert with the payload of buildOrderData, whose fields are:
customer_id null exactly for the walk-in sentinel, total_amount from
calculateTotal, the fixed status pending, payment_method or null when
falsy, and the trimmed notes or null when empty after trimming. -/
theorem handleSubmit_orderPayload (products : List Product) (store : Store) (s : FormState)
    (h : s.orderItems ≠ []) :
    (handleSubmit products store s).effects.head? = some (.insertOrder (buildOrderData s))
    ∧ (buildOrderData s).customer_id
        = (if s.customerId = "walk-in" then none else some s.customerId)
    ∧ (buildOrderData s).total_amount = calculateTotal s.orderItems
    ∧ (buildOrderData s).status = "pending"
    ∧ (buildOrderData s).payment_method
        = (if s.paymentMethod = "" then none else some s.paymentMethod)
    ∧ (buildOrderData s).notes
        = (if trim s.notes = "" then none else some (trim s.notes)) := by
  have hlen : s.orderItems.length ≠ 0 := by simpa using h
  refine ⟨?_, rfl, rfl, rfl, rfl, rfl⟩
  simp only [handleSubmit]
  rw [if_neg hlen]
  cases store.orderResult with
  | error e => rfl
  | ok o =>
    cases store.itemsResult with
    | error e => rfl
    | ok u => rfl

/-- Witness for C3 at a draft with walk-in customer, falsy payment
method and notes needing a trim; a whitespace-only notes draft is also
evaluated. -/
theorem handleSubmit_orderPayload_witness :
    sampleState1.orderItems ≠ []
    ∧ (handleSubmit [] storeOk sampleState1).effects.head?
        = some (.insertOrder (buildOrderData sampleState1))
    ∧ (buildOrderData sampleState1).customer_id = none
    ∧ (buildOrderData sampleState1).payment_method = none
    ∧ (buildOrderData sampleState1).notes = some "gift wrap"
    ∧ (buildOrderData ⟨"c9", "cash", "   ", [⟨"A", 2, 10⟩]⟩).customer_id = some "c9"
    ∧ (buildOrderData ⟨"c9", "cash", "   ", [⟨"A", 2, 10⟩]⟩).notes = none :=
  ⟨by decide, (handleSubmit_orderPayload [] storeOk sampleState1 (by decide)).1,
    by decide, by decide, by decide, by decide, by decide⟩

/-- C4: when the order insert succeeds on a non-empty draft, the second
effect is the single batch insert of one line-item payload per draft
item, in the items order, each with order_id the created id, the other
fields copied from the item, and total_price computed per item as
quantity x unitPrice. -/
theorem handleSubmit_itemPayloads (products : List Product) (store : Store) (s : FormState)
    (o : CreatedOrder) (hne : s.orderItems ≠ []) (hok : store.orderResult = .ok o) :
    (handleSubmit products store s).effects[1]?
        = some (.insertItems (s.orderItems.map (mkOrderItemData o.id)))
    ∧ (s.orderItems.map (mkOrderItemData o.id)).length = s.orderItems.length
    ∧ (∀ item : OrderItem, mkOrderItemData o.id item
        = ⟨o.id, item.productId, item.quantity, item.unitPrice,
            item.quantity * item.unitPrice⟩) := by
  have hlen : s.orderItems.length ≠ 0 := by simpa using hne
  refine ⟨?_, by simp, fun item => rfl⟩
  simp only [handleSubmit]
  rw [if_neg hlen, hok]
  cases store.itemsResult with
  | error e => rfl
  | ok u => rfl

/-- Witness for C4 at the two-item example of the spec: total 25, item
totals 20 and 5. -/
theorem handleSubmit_itemPayloads_witness :
    sampleState2.orderItems ≠ []
    ∧ (handleSubmit [] storeOk sampleState2).effects[1]?
        = some (.insertItems (sampleState2.orderItems.map (mkOrderItemData "o1")))
    ∧ calculateTotal sampleState2.orderItems = 25
    ∧ (buildOrderData sampleState2).total_amount = 25
    ∧ (mkOrderItemData "o1" ⟨"A", 2, 10⟩).total_price = 20
    ∧ (mkOrderItemData "o1" ⟨"B", 1, 5⟩).total_price = 5 :=
  ⟨by decide,
    (handleSubmit_itemPayloads [] storeOk sampleState2 ⟨"o1"⟩ (by decide) rfl).1,
    by norm_num [calculateTotal, sampleState2],
    by norm_num [buildOrderData, calculateTotal, sampleState2],
    by norm_num [mkOrderItemData],
    by norm_num [mkOrderItemData]⟩

/-- C5: when the order insert fails on a non-empty draft, the trace is
exactly the one order insert — no item insert follows — the error is the
error message of the store (the generic fallback when the error carries
none), submitting ends false, and the draft state is unchanged. -/
theorem handleSubmit_orderInsertFails (products : List Product) (store : Store)
    (s : FormState) (e : StoreError)
    (hne : s.orderItems ≠ []) (herr : store.orderResult = .error e) :
    (handleSubmit products store s).effects = [.insertOrder (buildOrderData s)]
    ∧ (handleSubmit products store s).error = some (errMessage e)
    ∧ (e.message = none → errMessage e = "An error occurred")
    ∧ (handleSubmit products store s).submitting = false
    ∧ (handleSubmit products store s).state = s := by
  have hlen : s.orderItems.length ≠ 0 := by simpa using hne
  have hmain : handleSubmit products store s
      = { effects := [.insertOrder (buildOrderData s)]
          error := some (errMessage e)
          submitting := false
          state := s } := by
    simp only [handleSubmit]
    rw [if_neg hlen, herr]
  exact ⟨by rw [hmain], by rw [hmain], fun hm => by simp [errMessage, hm],
    by rw [hmain], by rw [hmain]⟩

/-- Witness for C5 with a message-less store error on the two-item
draft. -/
theorem handleSubmit_orderInsertFails_witness :
    sampleState2.orderItems ≠ []
    ∧ ((handleSubmit [] storeOrderFail sampleState2).effects
          = [.insertOrder (buildOrderData sampleState2)]
      ∧ (handleSubmit [] storeOrderFail sampleState2).error
          = some (errMessage ⟨none⟩)
      ∧ ((⟨none⟩ : StoreError).message = none
          → errMessage ⟨none⟩ = "An error occurred")
      ∧ (handleSubmit [] storeOrderFail sampleState2).submitting = false
      ∧ (handleSubmit [] storeOrderFail sampleState2).state = sampleState2) :=
  ⟨by decide,
    handleSubmit_orderInsertFails [] storeOrderFail sampleState2 ⟨none⟩ (by decide) rfl⟩

/-- C6: when the order insert succeeds and the item insert fails, the
trace is exactly the order insert followed by the item insert — no
deleteOrder effect and no navigation occurs anywhere in it — the item
insert error is surfaced through the single error channel, and
submitting ends false. -/
theorem handleSubmit_itemsInsertFails (products : List Product) (store : Store)
    (s : FormState) (o : CreatedOrder) (e : StoreError)
    (hne : s.orderItems ≠ []) (hok : store.orderResult = .ok o)
    (hierr : store.itemsResult = .error e) :
    (handleSubmit products store s).effects
        = [.insertOrder (buildOrderData s),
            .insertItems (s.orderItems.map (mkOrderItemData o.id))]
    ∧ (handleSubmit products store s).error = some (errMessage e)
    ∧ (∀ oid : String, Effect.deleteOrder oid ∉ (handleSubmit products store s).effects)
    ∧ (∀ path : String, Effect.navigate path ∉ (handleSubmit products store s).effects)
    ∧ (handleSubmit products store s).submitting = false := by
  have hlen : s.orderItems.length ≠ 0 := by simpa using hne
  have hmain : handleSubmit products store s
      = { effects := [.insertOrder (buildOrderData s),
            .insertItems (s.orderItems.map (mkOrderItemData o.id))]
          error := some (errMessage e)
          submitting := false
          state := s } := by
    simp only [handleSubmit]
    rw [if_neg hlen, hok, hierr]
  refine ⟨by rw [hmain], by rw [hmain], ?_, ?_, by rw [hmain]⟩
  · intro oid
    rw [hmain]
    simp
  · intro path
    rw [hmain]
    simp

/-- Witness for C6 on the two-item draft with a failing item insert. -/
theorem handleSubmit_itemsInsertFails_witness :
    sampleState2.orderItems ≠ []
    ∧ ((handleSubmit [] storeItemsFail sampleState2).effects
          = [.insertOrder (buildOrderData sampleState2),
              .insertItems (sampleState2.orderItems.map (mkOrderItemData "o1"))]
      ∧ (handleSubmit [] storeItemsFail sampleState2).error
          = some (errMessage ⟨some "boom"⟩)
      ∧ (∀ oid : String,
          Effect.deleteOrder oid ∉ (handleSubmit [] storeItemsFail sampleState2).effects)
      ∧ (∀ path : String,
          Effect.navigate path ∉ (handleSubmit [] storeItemsFail sampleState2).effects)
      ∧ (handleSubmit [] storeItemsFail sampleState2).submitting = false) :=
  ⟨by decide,
    handleSubmit_itemsInsertFails [] storeItemsFail sampleState2 ⟨"o1"⟩ ⟨some "boom"⟩
      (by decide) rfl rfl⟩

/-- C7: updating an in-bounds item with a productId present in the
catalog sets that productId and overwrites unitPrice with the catalog
price of the found product in the same update; updating quantity or
unitPrice changes only that one field; in every case no other position
of the list is affected. -/
theorem updateOrderItem_spec (products : List Product) (items : List OrderItem)
    (index : Nat) (pid : String) (product : Product) (old : OrderItem)
    (hfind : products.find? (fun p => p.id == pid) = some product)
    (hget : items[index]? = some old) :
    (updateOrderItem products items index (.productId pid))[index]?
        = some { old with productId := pid, unitPrice := product.price }
    ∧ (∀ v : ℚ, (updateOrderItem products items index (.quantity v))[index]?
        = some { old with quantity := v })
    ∧ (∀ v : ℚ, (updateOrderItem products items index (.unitPrice v))[index]?
        = some { old with unitPrice := v })
    ∧ (∀ (fv : FieldValue) (j : Nat), j ≠ index →
        (updateOrderItem products items index fv)[j]? = items[j]?) := by
  refine ⟨?_, ?_, ?_, ?_⟩
  · simp only [updateOrderItem, hfind]
    exact modifyItem_getElem?_self _ index items old hget
  · intro v
    exact modifyItem_getElem?_self _ index items old hget
  · intro v
    exact modifyItem_getElem?_self _ index items old hget
  · intro fv j hj
    cases fv with
    | productId v =>
      simp only [updateOrderItem]
      cases hf : products.find? (fun p => p.id == v) with
      | some q => exact modifyItem_getElem?_ne _ index j items hj
      | none => rfl
    | quantity v => exact modifyItem_getElem?_ne _ index j items hj
    | unitPrice v => exact modifyItem_getElem?_ne _ index j items hj

/-- Witness for C7: selecting product A resets the manually edited price
of the item at index 0 to the catalog price. -/
theorem updateOrderItem_spec_witness :
    ([⟨"A", "Prod A", 10, 3, none⟩] : List Product).find? (fun p => p.id == "A")
        = some ⟨"A", "Prod A", 10, 3, none⟩
    ∧ ([⟨"", 1, 7⟩] : List OrderItem)[0]? = some ⟨"", 1, 7⟩
    ∧ (updateOrderItem [⟨"A", "Prod A", 10, 3, none⟩] [⟨"", 1, 7⟩] 0
        (.productId "A"))[0]? = some ⟨"A", 1, 10⟩ :=
  ⟨by decide, by decide,
    (updateOrderItem_spec [⟨"A", "Prod A", 10, 3, none⟩] [⟨"", 1, 7⟩] 0 "A"
      ⟨"A", "Prod A", 10, 3, none⟩ ⟨"", 1, 7⟩ (by decide) (by decide)).1⟩

/-- C9: handleSubmit reads no stock level — on two catalogs that agree
except possibly in stock_quantity it behaves identically in every part
of its result — while the soft per-line warning is exactly the display
flag that the found product has stock_quantity below the requested
quantity. -/
theorem handleSubmit_stockIndependent (ps qs : List Product) (store : Store) (s : FormState)
    (h : catalogEqExceptStock ps qs = true) :
    handleSubmit ps store s = handleSubmit qs store s
    ∧ (∀ (item : OrderItem) (product : Product),
        ps.find? (fun p => p.id == item.productId) = some product →
        (stockWarning ps item = true ↔ (product.stock_quantity : ℚ) < item.quantity)) := by
  refine ⟨rfl, ?_⟩
  intro item product hf
  simp [stockWarning, hf]

/-- Witness for C9: stock 3 against requested quantity 5 warns but the
submission outcome is the same as with ample stock. -/
theorem handleSubmit_stockIndependent_witness :
    catalogEqExceptStock [⟨"A", "Prod A", 10, 3, none⟩] [⟨"A", "Prod A", 10, 100, none⟩]
        = true
    ∧ handleSubmit [⟨"A", "Prod A", 10, 3, none⟩] storeOk sampleState3
        = handleSubmit [⟨"A", "Prod A", 10, 100, none⟩] storeOk sampleState3
    ∧ stockWarning [⟨"A", "Prod A", 10, 3, none⟩] ⟨"A", 5, 10⟩ = true
    ∧ stockWarning [⟨"A", "Prod A", 10, 100, none⟩] ⟨"A", 5, 10⟩ = false :=
  ⟨by decide,
    (handleSubmit_stockIndependent [⟨"A", "Prod A", 10, 3, none⟩]
      [⟨"A", "Prod A", 10, 100, none⟩] storeOk sampleState3 (by decide)).1,
    by decide, by decide⟩

/-- C10: updating the productId field with an id that matches no product
in the catalog leaves the item list entirely unchanged. -/
theorem updateOrderItem_unknown (products : List Product) (items : List OrderItem)
    (index : Nat) (v : String)
    (h : products.find? (fun p => p.id == v) = none) :
    updateOrderItem products items index (.productId v) = items := by
  simp [updateOrderItem, h]

/-- Witness for C10: id B is absent from a one-product catalog. -/
theorem updateOrderItem_unknown_witness :
    ([⟨"A", "Prod A", 10, 3, none⟩] : List Product).find? (fun p => p.id == "B") = none
    ∧ updateOrderItem [⟨"A", "Prod A", 10, 3, none⟩] [⟨"C", 2, 7⟩] 0 (.productId "B")
        = [⟨"C", 2, 7⟩] :=
  ⟨by decide, updateOrderItem_unknown [⟨"A", "Prod A", 10, 3, none⟩] [⟨"C", 2, 7⟩] 0 "B"
    (by decide)⟩

end OrderForm
